import Mathlib

/- Shallow embedding of the counting semaphore in src/src/lib.rs.

The Rust semaphore protects a usize counter with a Mutex and blocks waiters
on a Condvar.  The counter is modelled as a Nat (the data model treats it as
an unbounded non-negative integer; usize overflow is outside every claim).
A blocking wait is modelled by the value the condition variable hands back
when the wait returns: the environment (other threads, spurious wakeups, the
timeout clock) decides when a wait returns and what the counter is at that
moment.  Mutex or Condvar poisoning is an explicit error case; calling
unwrap on a poisoned result is a panic, modelled as Except.error (). -/

namespace Sem

/- One return of Condvar::wait inside Semaphore::acquire: either the
reacquired guard with the counter at that moment (ok), or a poisoned
error (err), on which unwrap panics. -/
inductive WakeEvent where
  | ok (count : Nat)
  | err (count : Nat)
deriving DecidableEq, Repr

/-- Counters observed at the successive wake events. -/
def wakeCounts : List WakeEvent → List Nat
  | [] => []
  | WakeEvent.ok c :: rest => c :: wakeCounts rest
  | WakeEvent.err c :: rest => c :: wakeCounts rest

/-- The wait loop of Semaphore::acquire, from src/src/lib.rs lines 28-32:
while the counter is 0, wait on the condition variable and unwrap; then
decrement.  `wakes` lists the successive wait returns the environment
delivers.  Except.error () is the unwrap panic on a poisoned wait;
Except.ok none is a thread still blocked (counter zero at every wake and no
further wake arrives); Except.ok (some c) is a return leaving counter c. -/
def acquireLoop : Nat → List WakeEvent → Except Unit (Option Nat)
  | c, [] => if c = 0 then Except.ok none else Except.ok (some (c - 1))
  | c, w :: rest =>
    if c = 0 then
      match w with
      | WakeEvent.ok c2 => acquireLoop c2 rest
      | WakeEvent.err _ => Except.error ()
    else Except.ok (some (c - 1))

/-- Semaphore::acquire.  `entryPoisoned` models self.lock.lock() being
poisoned, on which unwrap panics. -/
def acquire (entryPoisoned : Bool) (count : Nat) (wakes : List WakeEvent) :
    Except Unit (Option Nat) :=
  if entryPoisoned then Except.error () else acquireLoop count wakes

/-- Semaphore::try_acquire: if the counter is positive, decrement and return
true, else return false; the counter is returned alongside. -/
def try_acquire (entryPoisoned : Bool) (count : Nat) : Except Unit (Bool × Nat) :=
  if entryPoisoned then Except.error ()
  else if count > 0 then Except.ok (true, count - 1)
  else Except.ok (false, count)

/- One return of Condvar::wait_timeout inside Semaphore::acquire_timeout:
ok count elapsed is the Ok case, with the counter at that moment and the
time already spent waiting (the WaitTimeoutResult flag the code discards
with an underscore pattern corresponds to dur ≤ elapsed); err count is a
poisoned error, which the code's catch-all arm turns into a plain false. -/
inductive WaitTimeoutResult where
  | ok (count : Nat) (elapsed : Nat)
  | err (count : Nat)
deriving DecidableEq, Repr

/-- Semaphore::acquire_timeout, from src/src/lib.rs lines 37-51: take the
lock, perform a single wait_timeout(count, dur), and only then inspect the
counter; on the Ok case decrement and return true when the counter is
positive, else return false; on the poisoned case return false.  Note that
`dur` never enters the post-wait decision and there is no re-wait. -/
def acquire_timeout (entryPoisoned : Bool) (dur : Nat) (w : WaitTimeoutResult) :
    Except Unit (Bool × Nat) :=
  if entryPoisoned then Except.error ()
  else
    match w with
    | WaitTimeoutResult.ok c _ =>
      if c > 0 then Except.ok (true, c - 1) else Except.ok (false, c)
    | WaitTimeoutResult.err c => Except.ok (false, c)

/-- Semaphore::release: increment the counter under the lock, then call
notify_one once.  Returns the new counter and the number of notify_one
calls made (always exactly one, so at most one waiter is woken). -/
def release (entryPoisoned : Bool) (count : Nat) : Except Unit (Nat × Nat) :=
  if entryPoisoned then Except.error () else Except.ok (count + 1, 1)

/-- Semaphore::get_value: read the counter under the lock. -/
def get_value (entryPoisoned : Bool) (count : Nat) : Except Unit Nat :=
  if entryPoisoned then Except.error () else Except.ok count

/-- SemaphoreGuard::acquire: delegates to the blocking Semaphore::acquire;
the guard holds only a back-reference to the semaphore. -/
def guard_acquire (entryPoisoned : Bool) (count : Nat) (wakes : List WakeEvent) :
    Except Unit (Option Nat) :=
  acquire entryPoisoned count wakes

/-- The Drop implementation of SemaphoreGuard: calls Semaphore::release
exactly once. -/
def guard_drop (entryPoisoned : Bool) (count : Nat) : Except Unit (Nat × Nat) :=
  release entryPoisoned count

/- Sequential trace semantics for the whole-semaphore claims.  One thread
issues operations in order; in this model no other thread interferes, so a
wait returns with the counter it left: acq on a zero counter stays blocked,
and acqTimeout observes the entry counter after its single timed wait. -/
inductive Op where
  | acq
  | tryAcq
  | acqTimeout (dur : Nat) (elapsed : Nat)
  | rel
deriving DecidableEq, Repr

/-- Whether the operation is a release. -/
def Op.isRel : Op → Bool
  | Op.acq => false
  | Op.tryAcq => false
  | Op.acqTimeout _ _ => false
  | Op.rel => true

/-- Run one operation through the corresponding embedded function:
some (count, dec) gives the counter afterwards and whether the operation
performed a successful decrement; none means the operation never completes
(a blocking acquire with the counter at zero and nobody to wake it). -/
def execOp (c : Nat) : Op → Option (Nat × Bool)
  | Op.acq =>
    match acquireLoop c [] with
    | Except.ok (some c2) => some (c2, true)
    | _ => none
  | Op.tryAcq =>
    match try_acquire false c with
    | Except.ok (b, c2) => some (c2, b)
    | Except.error _ => none
  | Op.acqTimeout dur e =>
    match acquire_timeout false dur (WaitTimeoutResult.ok c e) with
    | Except.ok (b, c2) => some (c2, b)
    | Except.error _ => none
  | Op.rel =>
    match release false c with
    | Except.ok (c2, _) => some (c2, false)
    | Except.error _ => none

/-- Run a sequence of operations, returning the final counter, the number
of successful decrements, and the number of releases. -/
def exec : Nat → List Op → Option (Nat × Nat × Nat)
  | c, [] => some (c, 0, 0)
  | c, op :: rest =>
    match execOp c op with
    | none => none
    | some (c2, dec) =>
      match exec c2 rest with
      | none => none
      | some (cf, sa, r) =>
        some (cf, (if dec then 1 else 0) + sa, (if op.isRel then 1 else 0) + r)

/-- One-step bookkeeping: a completed operation changes the counter by
exactly its decrement and release contributions. -/
theorem execOp_balance (c : Nat) (op : Op) (c2 : Nat) (dec : Bool)
    (h : execOp c op = some (c2, dec)) :
    c2 + (if dec then 1 else 0) = c + (if op.isRel then 1 else 0) := by
  cases op with
  | acq =>
    by_cases hc : c = 0
    · simp [execOp, acquireLoop, hc] at h
    · simp [execOp, acquireLoop, hc] at h
      obtain ⟨h1, h2⟩ := h
      subst h1; subst h2
      simp [Op.isRel]
      omega
  | tryAcq =>
    by_cases hc : 0 < c
    · simp [execOp, try_acquire, hc] at h
      obtain ⟨h1, h2⟩ := h
      subst h1; subst h2
      simp [Op.isRel]
      omega
    · simp [execOp, try_acquire, hc] at h
      obtain ⟨h1, h2⟩ := h
      subst h1; subst h2
      simp [Op.isRel]
  | acqTimeout dur e =>
    by_cases hc : 0 < c
    · simp [execOp, acquire_timeout, hc] at h
      obtain ⟨h1, h2⟩ := h
      subst h1; subst h2
      simp [Op.isRel]
      omega
    · simp [execOp, acquire_timeout, hc] at h
      obtain ⟨h1, h2⟩ := h
      subst h1; subst h2
      simp [Op.isRel]
  | rel =>
    simp [execOp, release] at h
    obtain ⟨h1, h2⟩ := h
    subst h1; subst h2
    simp [Op.isRel]

/-- Trace bookkeeping: along any completed trace, the final counter plus the
successful decrements equals the initial counter plus the releases. -/
theorem exec_balance : ∀ (ops : List Op) (c cf sa r : Nat),
    exec c ops = some (cf, sa, r) → cf + sa = c + r := by
  intro ops
  induction ops with
  | nil =>
    intro c cf sa r h
    simp [exec] at h
    obtain ⟨h1, h2, h3⟩ := h
    omega
  | cons op rest ih =>
    intro c cf sa r h
    cases hop : execOp c op with
    | none => simp [exec, hop] at h
    | some p =>
      obtain ⟨c2, dec⟩ := p
      cases hrest : exec c2 rest with
      | none => simp [exec, hop, hrest] at h
      | some q =>
        obtain ⟨cf2, sa2, r2⟩ := q
        simp [exec, hop, hrest] at h
        obtain ⟨h1, h2, h3⟩ := h
        have hb := execOp_balance c op c2 dec hop
        have hi := ih c2 cf2 sa2 r2 hrest
        cases dec <;> cases hR : op.isRel <;>
          simp [hR] at hb h2 h3 <;> omega

/-- Running k blocking acquires on a counter of at least k succeeds,
decrements k times, and continues with the rest of the trace. -/
theorem exec_acqs_then : ∀ (k c : Nat), k ≤ c → ∀ l : List Op,
    exec c (List.replicate k Op.acq ++ l) =
      match exec (c - k) l with
      | none => none
      | some (cf, sa, r) => some (cf, k + sa, r) := by
  intro k
  induction k with
  | zero =>
    intro c _ l
    simp only [List.replicate_zero, List.nil_append, Nat.sub_zero]
    cases hx : exec c l with
    | none => rfl
    | some q => obtain ⟨cf, sa, r⟩ := q; simp
  | succ k ihk =>
    intro c hc l
    have hc0 : ¬ c = 0 := by omega
    have h1 : execOp c Op.acq = some (c - 1, true) := by
      simp [execOp, acquireLoop, hc0]
    rw [List.replicate_succ, List.cons_append]
    simp only [exec, h1]
    rw [ihk (c - 1) (by omega) l]
    have hsub : c - 1 - k = c - (k + 1) := by omega
    rw [hsub]
    cases hx : exec (c - (k + 1)) l with
    | none => rfl
    | some q =>
      obtain ⟨cf, sa, r⟩ := q
      simp [Op.isRel]
      omega

/-- Running k releases adds k to the counter and records k releases. -/
theorem exec_rels : ∀ (k c : Nat), exec c (List.replicate k Op.rel) = some (c + k, 0, k) := by
  intro k
  induction k with
  | zero => intro c; simp [exec]
  | succ k ihk =>
    intro c
    have h1 : execOp c Op.rel = some (c + 1, false) := rfl
    rw [List.replicate_succ]
    simp only [exec, h1, ihk (c + 1)]
    simp [Op.isRel]
    omega

/-- Claim C1 fails on the code: acquire_timeout performs a single
wait_timeout and never re-enters the wait.  With a budget of 2 time units,
a wake at elapsed time 1 (so time remains) with the counter still zero
makes the call return failure immediately instead of continuing to wait
with the remaining budget; the duration never enters the post-wait
decision at all. -/
theorem sem_C1 :
    1 < 2 ∧
    acquire_timeout false 2 (WaitTimeoutResult.ok 0 1) = Except.ok (false, 0) :=
  ⟨by decide, rfl⟩

/-- Claim C2: try_acquire succeeds and decrements by one exactly when the
counter is strictly positive; on a zero counter it fails and leaves the
counter at zero; on k greater than zero it returns true and leaves k - 1. -/
theorem sem_C2 (k : Nat) :
    ((∃ c2, try_acquire false k = Except.ok (true, c2)) ↔ 0 < k) ∧
    (0 < k → try_acquire false k = Except.ok (true, k - 1)) ∧
    try_acquire false 0 = Except.ok (false, 0) := by
  refine ⟨⟨?_, ?_⟩, ?_, rfl⟩
  · rintro ⟨c2, hc2⟩
    by_contra hk
    have hk0 : k = 0 := by omega
    subst hk0
    simp [try_acquire] at hc2
  · intro hk
    exact ⟨k - 1, by simp [try_acquire, hk]⟩
  · intro hk
    simp [try_acquire, hk]

/-- Witness for claim C2 at counter 3. -/
theorem sem_C2_witness :
    (0:Nat) < 3 ∧
    ((∃ c2, try_acquire false 3 = Except.ok (true, c2)) ↔ (0:Nat) < 3) ∧
    try_acquire false 3 = Except.ok (true, 2) :=
  ⟨by decide, (sem_C2 3).1, (sem_C2 3).2.1 (by decide)⟩

/-- Claim C3: the blocking acquire returns only after observing a strictly
positive counter, which it decrements by exactly one (the observed counter
is the entry counter or one delivered by a wake event, so it never returns
while every observation is zero); and a woken thread that still sees a zero
counter goes back to waiting in the loop. -/
theorem sem_C3 :
    (∀ (c : Nat) (ws : List WakeEvent) (r : Nat),
       acquireLoop c ws = Except.ok (some r) →
       ∃ c2, 0 < c2 ∧ r = c2 - 1 ∧ (c2 = c ∨ c2 ∈ wakeCounts ws)) ∧
    (∀ rest : List WakeEvent,
       acquireLoop 0 (WakeEvent.ok 0 :: rest) = acquireLoop 0 rest) := by
  constructor
  · intro c ws
    induction ws generalizing c with
    | nil =>
      intro r h
      by_cases hc : c = 0
      · simp [acquireLoop, hc] at h
      · simp [acquireLoop, hc] at h
        exact ⟨c, by omega, by omega, Or.inl rfl⟩
    | cons w rest ihw =>
      intro r h
      by_cases hc : c = 0
      · cases w with
        | ok c2 =>
          simp [acquireLoop, hc] at h
          obtain ⟨c3, hc3, hr, hmem⟩ := ihw c2 r h
          refine ⟨c3, hc3, hr, Or.inr ?_⟩
          cases hmem with
          | inl he => subst he; simp [wakeCounts]
          | inr hm => simp [wakeCounts]; exact Or.inr hm
        | err c2 =>
          simp [acquireLoop, hc] at h
      · simp [acquireLoop, hc] at h
        exact ⟨c, by omega, by omega, Or.inl rfl⟩
  · intro rest
    rfl

/-- Witness for claim C3: a wake delivering counter 2 lets the loop return
1, and a wake delivering counter 0 sends the loop back to waiting. -/
theorem sem_C3_witness :
    (∃ c2, 0 < c2 ∧ 1 = c2 - 1 ∧ (c2 = 0 ∨ c2 ∈ wakeCounts [WakeEvent.ok 2])) ∧
    acquireLoop 0 (WakeEvent.ok 0 :: [WakeEvent.ok 2]) = acquireLoop 0 [WakeEvent.ok 2] :=
  ⟨sem_C3.1 0 [WakeEvent.ok 2] 1 rfl, sem_C3.2 [WakeEvent.ok 2]⟩

/-- Claim C4: release increments the counter by exactly one and issues
exactly one notify_one call (so at most one waiter is woken); it never
fails or blocks, for every counter value, and an unmatched release silently
raises the counter beyond any constructed capacity. -/
theorem sem_C4 (c : Nat) :
    release false c = Except.ok (c + 1, 1) ∧
    exec c [Op.rel] = some (c + 1, 0, 1) ∧
    c < c + 1 :=
  ⟨rfl, rfl, by omega⟩

/-- Claim C5: when the window elapses with the counter still zero,
acquire_timeout returns failure and leaves the counter unmutated; in
particular a zero duration on a zero counter returns failure with the
counter still zero. -/
theorem sem_C5 (dur : Nat) :
    acquire_timeout false dur (WaitTimeoutResult.ok 0 dur) = Except.ok (false, 0) ∧
    acquire_timeout false 0 (WaitTimeoutResult.ok 0 0) = Except.ok (false, 0) :=
  ⟨rfl, rfl⟩

/-- Claim C6: for every constructed capacity and every completed sequence of
acquire, try_acquire, acquire_timeout and release operations in which the
releases never outnumber the successful decrements, the final counter stays
between zero and the capacity. -/
theorem sem_C6 (cap : Nat) (ops : List Op) (cf sa r : Nat)
    (h : exec cap ops = some (cf, sa, r)) (hbal : r ≤ sa) :
    0 ≤ cf ∧ cf ≤ cap := by
  have hb := exec_balance ops cap cf sa r h
  omega

/-- Witness for claim C6: one acquire then one release from capacity 2. -/
theorem sem_C6_witness :
    exec 2 [Op.acq, Op.rel] = some (2, 1, 1) ∧ (1:Nat) ≤ 1 ∧
    ((0:Nat) ≤ 2 ∧ (2:Nat) ≤ 2) :=
  ⟨rfl, by decide, sem_C6 2 [Op.acq, Op.rel] 2 1 1 rfl (by decide)⟩

/-- Claim C7: N successful acquires followed by N releases on a semaphore
constructed with capacity N return the counter to exactly N, as observed by
get_value. -/
theorem sem_C7 (N : Nat) :
    exec N (List.replicate N Op.acq ++ List.replicate N Op.rel) = some (N, N, N) ∧
    get_value false N = Except.ok N := by
  refine ⟨?_, rfl⟩
  rw [exec_acqs_then N N le_rfl]
  simp [exec_rels, Nat.sub_self]

/-- Claim C8 as amended: a poisoned mutex at lock() is a fatal error
(unwrap panic) in every operation, and a poisoned condition-variable wait
inside acquire likewise panics; but acquire_timeout converts a poisoned
wait_timeout into an ordinary boolean failure return through its catch-all
arm, leaving the counter as observed. -/
theorem sem_C8 :
    (∀ c, try_acquire true c = Except.error ()) ∧
    (∀ c ws, acquire true c ws = Except.error ()) ∧
    (∀ dur w, acquire_timeout true dur w = Except.error ()) ∧
    (∀ c, release true c = Except.error ()) ∧
    (∀ c, get_value true c = Except.error ()) ∧
    (∀ (c2 : Nat) (rest : List WakeEvent),
       acquireLoop 0 (WakeEvent.err c2 :: rest) = Except.error ()) ∧
    (∀ (dur c : Nat),
       acquire_timeout false dur (WaitTimeoutResult.err c) = Except.ok (false, c)) :=
  ⟨fun _ => rfl, fun _ _ => rfl, fun _ _ => rfl, fun _ => rfl, fun _ => rfl,
   fun _ _ => rfl, fun _ _ => rfl⟩

/-- Claim C8 fails on the code as stated: inside acquire_timeout a poisoned
wait_timeout is not propagated as a fatal error but converted into an
ordinary false return. -/
theorem sem_C8_cex :
    acquire_timeout false 5 (WaitTimeoutResult.err 0) = Except.ok (false, 0) ∧
    acquire_timeout false 5 (WaitTimeoutResult.err 0) ≠ Except.error () :=
  ⟨rfl, fun h => by simp [acquire_timeout] at h⟩

/-- Claim C9: the guard performs exactly one blocking acquire on
construction (delegating to Semaphore::acquire) and exactly one release on
destruction; on a capacity-1 semaphore the guard acquire takes the counter
from 1 to 0 and its destruction returns it to 1, observable via get_value. -/
theorem sem_C9 :
    (∀ (p : Bool) (c : Nat) (ws : List WakeEvent),
       guard_acquire p c ws = acquire p c ws) ∧
    (∀ (p : Bool) (c : Nat), guard_drop p c = release p c) ∧
    guard_acquire false 1 [] = Except.ok (some 0) ∧
    get_value false 0 = Except.ok 0 ∧
    guard_drop false 0 = Except.ok (1, 1) ∧
    get_value false 1 = Except.ok 1 :=
  ⟨fun _ _ _ => rfl, fun _ _ => rfl, rfl, rfl, rfl, rfl⟩

/-- Claim C10: acquire_timeout inspects the counter only after its single
timed wait, so whenever the counter observed after the wait is positive
(absent interference this is the entry counter) the call returns true and
leaves k - 1, for every duration and every elapsed time including the full
window; and the post-wait decision is independent of the duration
argument, so there is no pre-wait fast path for an already-available
permit. -/
theorem sem_C10 :
    (∀ (dur e k : Nat), 0 < k →
       acquire_timeout false dur (WaitTimeoutResult.ok k e) = Except.ok (true, k - 1)) ∧
    (∀ (d1 d2 : Nat) (w : WaitTimeoutResult),
       acquire_timeout false d1 w = acquire_timeout false d2 w) := by
  constructor
  · intro dur e k hk
    simp [acquire_timeout, hk]
  · intro d1 d2 w
    cases w <;> rfl

/-- Witness for claim C10: counter 1 observed after a zero-duration wait. -/
theorem sem_C10_witness :
    (0:Nat) < 1 ∧
    acquire_timeout false 0 (WaitTimeoutResult.ok 1 0) = Except.ok (true, 0) :=
  ⟨by decide, sem_C10.1 0 0 1 (by decide)⟩

end Sem
